import Mathlib

/-!
# forc-doc item rendering — shallow embedding

A shallow embedding of `forc-plugins/forc-doc/src/render/item/components.rs`:
the `ItemHeader` and `ItemBody` page components and their `render` functions,
together with models (from the specification) of the collaborator types they
use (`ModuleInfo`, `Sidebar`, `ItemContext`, `TyDecl` classification, …).

HTML document fragments are modelled as a tree (`Html`); the `horrorshow`
template calls of the source map to explicit tree constructions.  The
`Result<Box<dyn RenderBox>>` return type of the source's `Renderable::render`
maps to `Except String Html`.
-/

/-- An HTML attribute: a name together with an optional value
(`("open", none)` models a bare boolean attribute such as `open`). -/
abbrev Attr := String × Option String

mutual
/-- A document-tree fragment, as built by the source's `box_html!` templates.
`raw` is markup injected verbatim (the source's `Raw(..)`); `recordedError`
models horrorshow's behaviour of rendering an `Err` value inside a template:
the error is recorded in the fragment and surfaces only when the finished
template is written out, not as a failure of the surrounding `render` call. -/
inductive Html where
  | elem (tag : String) (attrs : List Attr) (children : HtmlList)
  | text (s : String)
  | raw (s : String)
  | recordedError (e : String)
/-- Children of an element (a specialised list, so that recursion over the
tree is structural). -/
inductive HtmlList where
  | nil
  | cons (h : Html) (t : HtmlList)
end

/-- Build element children from an ordinary list. -/
def HtmlList.ofList : List Html → HtmlList
  | [] => .nil
  | h :: t => .cons h (HtmlList.ofList t)

/-- View element children as an ordinary list. -/
def HtmlList.toList : HtmlList → List Html
  | .nil => []
  | .cons h t => h :: t.toList

/-- How horrorshow renders a `Result` value inside a template: the `Ok`
fragment is emitted, an `Err` is recorded inside the fragment (deferred),
not propagated to the caller. -/
def Html.captureResult : Except String Html → Html
  | .ok h => h
  | .error e => .recordedError e

/-- Modelled from the spec: `BaseIdent` (from `sway-types`, not in src/) —
an item identifier; only its string form `as_str` is used here. -/
structure BaseIdent where
  as_str : String
deriving DecidableEq

/-- Modelled from the spec: `RenderPlan` (§3) — ambient site-wide
configuration passed through every render call, read-only. -/
structure RenderPlan where
  options : List String
deriving DecidableEq

/-- Modelled from the spec: a doc-link (glossary) — an (anchor id, label)
pair identifying an in-page navigable section, surfaced in the sidebar. -/
structure DocLink where
  name : String
  href : String
deriving DecidableEq

/-- Modelled from the spec: `ModuleInfo` (§3, §4.1; `doc/module.rs` is not in
src/) — the ordered sequence of path segments from the site root to the
module containing the item. -/
structure ModuleInfo where
  module_prefixes : List String
deriving DecidableEq

/-- Nesting depth: the number of path segments (§3: segment count equals
nesting depth). -/
def ModuleInfo.depth (m : ModuleInfo) : Nat :=
  m.module_prefixes.length

/-- Modelled from the spec: `assetPath` (§4.1) — depth `d` yields `d`
parent-directory hops followed by the asset name; depth 0 yields the bare
name (no `./`). -/
def ModuleInfo.to_html_shorthand_path_string (m : ModuleInfo) (file : String) : String :=
  String.join (List.replicate m.depth "../") ++ file

/-- Modelled from the spec: the module display path derived from the path
segments (§3; the §8 example displays `mypkg::data`). -/
def ModuleInfo.location (m : ModuleInfo) : String :=
  String.intercalate "::" m.module_prefixes

/-- Modelled from the spec: `breadcrumbAnchors` / `get_anchors` (§4.1) — one
clickable anchor per path segment, each href computed with the parent-hop
rule so that the anchor for the segment at index `i` reaches that module's
index page from a page at the current depth.  §4.1 gives this operation no
failure mode (a pure function of the segment data), so it always succeeds;
the `Except` result type is kept from the call sites in `components.rs`. -/
def ModuleInfo.get_anchors (m : ModuleInfo) : Except String (List String) :=
  .ok (m.module_prefixes.enum.map fun ip =>
    "<a class=\"mod\" href=\"" ++ String.join (List.replicate (m.depth - (ip.1 + 1)) "../")
      ++ "index.html\">" ++ ip.2 ++ "</a>::")

/-- Modelled from the spec: the closed variant of item kinds (§3,
`ClassifiedDeclaration`, abstracting `TyDecl` from `sway-core`). -/
inductive TyDecl where
  | StructDecl
  | EnumDecl
  | TraitDecl
  | AbiDecl
  | FunctionDecl
  | ConstantDecl
  | StorageDecl
  | TypeAliasDecl
deriving DecidableEq

/-- Modelled from the spec: the short kind tag used for CSS/URL
discrimination (§3: the mapping kind→tag is total and stable). -/
def TyDecl.doc_name : TyDecl → String
  | .StructDecl => "struct"
  | .EnumDecl => "enum"
  | .TraitDecl => "trait"
  | .AbiDecl => "abi"
  | .FunctionDecl => "fn"
  | .ConstantDecl => "constant"
  | .StorageDecl => "storage"
  | .TypeAliasDecl => "type_alias"

/-- Modelled from the spec: the block-title classification of an item kind
(`render/title.rs` is not in src/). -/
inductive BlockTitle where
  | Structs
  | Enums
  | Traits
  | Abi
  | ContractStorage
  | Constants
  | Functions
  | TypeAliases
deriving DecidableEq

/-- Modelled from the spec: the human-readable title phrase of a block title
(§3: each variant exposes a human-readable block title). -/
def BlockTitle.item_title_str : BlockTitle → String
  | .Structs => "Struct"
  | .Enums => "Enum"
  | .Traits => "Trait"
  | .Abi => "Abi"
  | .ContractStorage => "Contract Storage"
  | .Constants => "Constant"
  | .Functions => "Function"
  | .TypeAliases => "Type Alias"

/-- Modelled from the spec: the total, stable kind→block-title mapping. -/
def TyDecl.as_block_title : TyDecl → BlockTitle
  | .StructDecl => .Structs
  | .EnumDecl => .Enums
  | .TraitDecl => .Traits
  | .AbiDecl => .Abi
  | .StorageDecl => .ContractStorage
  | .ConstantDecl => .Constants
  | .FunctionDecl => .Functions
  | .TypeAliasDecl => .TypeAliases

/-- Modelled from the spec: the two logical sidebar styles (§4.3) — an index
style (no specific item) and an item style (declaration kind + name). -/
inductive DocStyle where
  | Index
  | Item (title : Option BlockTitle) (name : Option BaseIdent)
deriving DecidableEq

deriving instance DecidableEq for Except

/-- Modelled from the spec: the populated substructure of an `ItemContext`
(§3, §6; `render/item/context.rs` is not in src/).  The external collaborator
supplies the substructure markup already rendered (§6) together with the
derived doc-links; rendering the substructure may fail (the `Result` type at
the call site in `components.rs`, line 108), so the populated markup is
modelled as markup-or-error. -/
structure ContextType where
  doclinks : List DocLink
  markup : Except String String
deriving DecidableEq

/-- Modelled from the spec: `ItemContext` (§3, §4.4) — an optional nested
content fragment, present only for item kinds that have substructure. -/
structure ItemContext where
  context_opt : Option ContextType
deriving DecidableEq

/-- Modelled from the spec: the doc-link sequence derived by `ItemContext`
(§3: if the optional content is absent, the doc-link sequence is empty). -/
def ItemContext.to_doclinks (c : ItemContext) : List DocLink :=
  match c.context_opt with
  | some ct => ct.doclinks
  | none => []

/-- Modelled from the spec: `ItemContext.render` (§4.4) — emits the populated
substructure markup; the call site only invokes it when content is present. -/
def ItemContext.render (c : ItemContext) (_render_plan : RenderPlan) : Except String Html :=
  match c.context_opt with
  | some ct => ct.markup.map Html.raw
  | none => .ok (.raw "")

/-- Modelled from the spec: `Sidebar` (§3, §4.3; `render/sidebar.rs` is not
in src/) — style, module position and the ordered doc-link list. -/
structure Sidebar where
  version_opt : Option String
  style : DocStyle
  module_info : ModuleInfo
  nav_links : List DocLink
deriving DecidableEq

/-- The `Sidebar::new` constructor. -/
def Sidebar.new (version_opt : Option String) (style : DocStyle) (module_info : ModuleInfo)
    (nav_links : List DocLink) : Sidebar :=
  ⟨version_opt, style, module_info, nav_links⟩

/-- Heading text of a sidebar style (index pages have no item heading). -/
def DocStyle.headingText : DocStyle → String
  | .Index => ""
  | .Item t n =>
      (match t with | some bt => bt.item_title_str ++ " " | none => "")
        ++ (match n with | some i => i.as_str | none => "")

/-- Modelled from the spec: `Sidebar.render` (§4.3) — renders, in order, the
breadcrumb trail from `ModuleInfo`, a heading identifying the current page
kind, and the doc-link list verbatim; an empty doc-link list still yields the
(empty) navigation shell.  It fails exactly when anchor resolution fails. -/
def Sidebar.render (s : Sidebar) (_render_plan : RenderPlan) : Except String Html :=
  match s.module_info.get_anchors with
  | .error e => .error e
  | .ok anchors =>
    .ok (.elem "nav" [("class", some "sidebar")] (.ofList (
      (anchors.map Html.raw)
      ++ [.elem "div" [("class", some "sidebar-elems")] (.ofList [.text s.style.headingText])]
      ++ [.elem "div" [("class", some "block")] (.ofList (s.nav_links.map fun l =>
            .elem "a" [("href", some l.href)] (.ofList [.text l.name])))])))

/-- The identity href constant (`render/constant.rs` is not in src/; the
theorems below do not depend on its value, only on the fact that the item
name is wrapped in an anchor whose href is this constant). -/
def IDENTITY : String := "#"

/-- `ItemHeader` — all components needed to render the `<head>` portion of an
item page (`components.rs`, lines 16–21). -/
structure ItemHeader where
  module_info : ModuleInfo
  friendly_name : String
  item_name : BaseIdent
deriving DecidableEq

/-- `ItemHeader::render` (`components.rs`, lines 24–59): metadata, favicon
link, title and four stylesheet links, with every asset href computed
module-relative by `ModuleInfo`. -/
def ItemHeader.render (h : ItemHeader) (_render_plan : RenderPlan) : Except String Html :=
  let favicon := h.module_info.to_html_shorthand_path_string "assets/sway-logo.svg"
  let normalize := h.module_info.to_html_shorthand_path_string "assets/normalize.css"
  let swaydoc := h.module_info.to_html_shorthand_path_string "assets/swaydoc.css"
  let ayu := h.module_info.to_html_shorthand_path_string "assets/ayu.css"
  let ayu_hjs := h.module_info.to_html_shorthand_path_string "assets/ayu.min.css"
  .ok (.elem "head" [] (.ofList [
    .elem "meta" [("charset", some "utf-8")] .nil,
    .elem "meta" [("name", some "viewport"),
      ("content", some "width=device-width, initial-scale=1.0")] .nil,
    .elem "meta" [("name", some "generator"), ("content", some "swaydoc")] .nil,
    .elem "meta" [("name", some "description"),
      ("content", some ("API documentation for the Sway `" ++ h.item_name.as_str ++ "` "
        ++ h.friendly_name ++ " in `" ++ h.module_info.location ++ "`."))] .nil,
    .elem "meta" [("name", some "keywords"),
      ("content", some ("sway, swaylang, sway-lang, " ++ h.item_name.as_str))] .nil,
    .elem "link" [("rel", some "icon"), ("href", some favicon)] .nil,
    .elem "title" [] (.ofList [.text (h.item_name.as_str ++ " in " ++ h.module_info.location
      ++ " - Sway")]),
    .elem "link" [("rel", some "stylesheet"), ("type", some "text/css"),
      ("href", some normalize)] .nil,
    .elem "link" [("rel", some "stylesheet"), ("type", some "text/css"),
      ("href", some swaydoc), ("id", some "mainThemeStyle")] .nil,
    .elem "link" [("rel", some "stylesheet"), ("type", some "text/css"),
      ("href", some ayu)] .nil,
    .elem "link" [("rel", some "stylesheet"), ("href", some ayu_hjs)] .nil]))

/-- `ItemBody` — all components needed to render the body portion of an item
page (`components.rs`, lines 65–76). -/
structure ItemBody where
  module_info : ModuleInfo
  ty_decl : TyDecl
  item_name : BaseIdent
  code_str : String
  attrs_opt : Option String
  item_context : ItemContext
deriving DecidableEq

/-- `SidebarNav::sidebar` for `ItemBody` (`components.rs`, lines 77–90): the
sidebar is derived from the body itself, with the item style (block title +
item name), the body's module info and the context's doc-links. -/
def ItemBody.sidebar (b : ItemBody) : Sidebar :=
  Sidebar.new none
    (DocStyle.Item (some b.ty_decl.as_block_title) (some b.item_name))
    b.module_info
    b.item_context.to_doclinks

/-- The expandable description block (`components.rs`, lines 158–169): a
`details` element carrying the bare `open` attribute (expanded by default),
with a summary and the description markup injected raw. -/
def descriptionRegion (descr : String) : Html :=
  .elem "details" [("class", some "swaydoc-toggle top-doc"), ("open", none)] (.ofList [
    .elem "summary" [("class", some "hideme")] (.ofList [
      .elem "span" [] (.ofList [.text "Expand description"])]),
    .elem "div" [("class", some "docblock")] (.ofList [.raw descr])])

/-- `ItemBody::render` (`components.rs`, lines 93–182).  The sidebar is
derived first; its render failure and a `get_anchors` failure propagate
(`?`), while the conditional substructure render result is stored as an
`Option (Except ..)` and embedded into the fragment (deferred error), exactly
as at the source's lines 107–108 and 170–172. -/
def ItemBody.render (b : ItemBody) (render_plan : RenderPlan) : Except String Html :=
  let sidebar := b.sidebar
  let decl_ty := b.ty_decl.doc_name
  let block_title := b.ty_decl.as_block_title
  match sidebar.render render_plan with
  | .error e => .error e
  | .ok sidebarFrag =>
    let item_context : Option (Except String Html) :=
      if b.item_context.context_opt.isSome then some (b.item_context.render render_plan)
      else none
    let sway_hjs := b.module_info.to_html_shorthand_path_string "assets/highlight.js"
    match b.module_info.get_anchors with
    | .error e => .error e
    | .ok rendered_module_anchors =>
      .ok (.elem "body" [("class", some ("swaydoc " ++ decl_ty))] (.ofList ([
        sidebarFrag,
        .elem "main" [] (.ofList [
          .elem "div" [("class", some "width-limiter")] (.ofList [
            .elem "section" [("id", some "main-content"), ("class", some "content")] (.ofList ([
              .elem "div" [("class", some "main-heading")] (.ofList [
                .elem "h1" [("class", some "fqn")] (.ofList [
                  .elem "span" [("class", some "in-band")] (.ofList (
                    [.text (block_title.item_title_str ++ " ")]
                    ++ rendered_module_anchors.map Html.raw
                    ++ [.elem "a" [("class", some decl_ty), ("href", some IDENTITY)]
                        (.ofList [.text b.item_name.as_str])]))])]),
              .elem "div" [("class", some "docblock item-decl")] (.ofList [
                .elem "pre" [("class", some ("sway " ++ decl_ty))] (.ofList [
                  .elem "code" [] (.ofList [.text b.code_str])])])]
              ++ (match b.attrs_opt with
                  | some descr => [descriptionRegion descr]
                  | none => [])
              ++ (match item_context with
                  | some r => [Html.captureResult r]
                  | none => [])))])]),
        .elem "script" [("src", some sway_hjs)] .nil,
        .elem "script" [] (.ofList [.text "hljs.highlightAll();"])])))

/-! ## Observation functions on fragments -/

/-- Look up the value of an attribute by name. -/
def lookupAttr (name : String) (attrs : List Attr) : Option String :=
  attrs.findSome? fun p => if p.1 = name then p.2 else none

/-- Whether an attribute with the given name is present (also bare ones). -/
def hasAttrKey (name : String) (attrs : List Attr) : Bool :=
  attrs.any fun p => p.1 == name

/-- The static-asset reference carried directly by one element: the `href` of
a `link` element or the `src` of a `script` element. -/
def refOf (tag : String) (attrs : List Attr) : Option String :=
  if tag = "link" then lookupAttr "href" attrs
  else if tag = "script" then lookupAttr "src" attrs
  else none

mutual
/-- All static-asset references in a fragment, in document order. -/
def Html.refs : Html → List String
  | .elem t a cs => (refOf t a).toList ++ cs.refsList
  | _ => []
def HtmlList.refsList : HtmlList → List String
  | .nil => []
  | .cons h t => h.refs ++ t.refsList
end

/-- The text of a script element that consists of a single text node. -/
def scriptInlineText : HtmlList → Option String
  | .cons (.text s) .nil => some s
  | _ => none

mutual
/-- The statements of all inline (`src`-less) script elements in a fragment. -/
def Html.inlineScripts : Html → List String
  | .elem t a cs =>
      (if t == "script" && (lookupAttr "src" a).isNone then (scriptInlineText cs).toList
       else []) ++ cs.inlineScriptsList
  | _ => []
def HtmlList.inlineScriptsList : HtmlList → List String
  | .nil => []
  | .cons h t => h.inlineScripts ++ t.inlineScriptsList
end

/-- The text of the `<title>` element of a `<head>` fragment. -/
def titleOf : Html → Option String
  | .elem "head" _ cs =>
      cs.toList.findSome? fun c =>
        match c with
        | .elem "title" _ (.cons (.text s) .nil) => some s
        | _ => none
  | _ => none

/-- The hrefs of the stylesheet `link` elements of a `<head>` fragment, in
document order. -/
def stylesheetHrefs : Html → List String
  | .elem "head" _ cs =>
      cs.toList.filterMap fun c =>
        match c with
        | .elem "link" attrs _ =>
            if lookupAttr "rel" attrs = some "stylesheet" then lookupAttr "href" attrs else none
        | _ => none
  | _ => []

/-- The href of the favicon (`rel="icon"`) link of a `<head>` fragment. -/
def faviconHref : Html → Option String
  | .elem "head" _ cs =>
      cs.toList.findSome? fun c =>
        match c with
        | .elem "link" attrs _ =>
            if lookupAttr "rel" attrs = some "icon" then lookupAttr "href" attrs else none
        | _ => none
  | _ => none

/-- The children of a `<body>` fragment. -/
def bodyChildren : Html → Option (List Html)
  | .elem "body" _ cs => some cs.toList
  | _ => none

/-- The children of the `section#main-content` region of a rendered body
(body → main → width-limiter div → section). -/
def sectionChildren : Html → Option (List Html)
  | .elem "body" _ (.cons _ (.cons (.elem "main" _
      (.cons (.elem "div" _ (.cons (.elem "section" _ cs) .nil)) .nil)) _)) =>
      some cs.toList
  | _ => none

/-- The children of the `h1 > span` main heading of a rendered body. -/
def headingSpanChildren (frag : Html) : Option (List Html) :=
  (sectionChildren frag).bind fun cs =>
    match cs.head? with
    | some (.elem "div" _ (.cons (.elem "h1" _ (.cons (.elem "span" _ spanCs) .nil)) .nil)) =>
        some spanCs.toList
    | _ => none

/-- The last inline element of the main heading (where the item name goes). -/
def headingLast (frag : Html) : Option Html :=
  (headingSpanChildren frag).bind List.getLast?

/-- Whether a node is a plain text node. -/
def Html.isTextNode : Html → Bool
  | .text _ => true
  | _ => false

/-- The href of an anchor element. -/
def anchorHref : Html → Option String
  | .elem "a" attrs _ => lookupAttr "href" attrs
  | _ => none

/-- The text of an anchor element consisting of a single text node. -/
def anchorText : Html → Option String
  | .elem "a" _ (.cons (.text s) .nil) => some s
  | _ => none

/-- The substructure slot of a rendered body: the section child right after
the fixed heading and code blocks and the description region, when present. -/
def contextSlot (b : ItemBody) (frag : Html) : Option Html :=
  (sectionChildren frag).bind fun cs =>
    (cs.drop (if b.attrs_opt.isSome then 3 else 2)).head?

/-- Whether a node is a `details` element carrying the bare `open`
attribute (i.e. an expandable block defaulting to the expanded state). -/
def descDetailsOpen : Html → Bool
  | .elem "details" attrs _ => hasAttrKey "open" attrs
  | _ => false

/-! ## Serialization (for byte-identity statements) -/

/-- Escape one character of document text. -/
def escapeChar (c : Char) : String :=
  if c = '<' then "&lt;"
  else if c = '>' then "&gt;"
  else if c = '&' then "&amp;"
  else if c = '\"' then "&quot;"
  else String.singleton c

/-- Escape document text. -/
def escapeHtml (s : String) : String :=
  String.join (s.data.map escapeChar)

/-- Serialize one attribute. -/
def attrString (a : Attr) : String :=
  match a.2 with
  | some v => " " ++ a.1 ++ "=\"" ++ escapeHtml v ++ "\""
  | none => " " ++ a.1

mutual
/-- Serialize a fragment to its output bytes (a recorded error makes the
final write fail in horrorshow; it contributes no bytes here). -/
def Html.toString : Html → String
  | .elem t attrs cs =>
      "<" ++ t ++ String.join (attrs.map attrString) ++ ">" ++ cs.toStringList ++ "</" ++ t ++ ">"
  | .text s => escapeHtml s
  | .raw s => s
  | .recordedError _ => ""
def HtmlList.toStringList : HtmlList → String
  | .nil => ""
  | .cons h t => h.toString ++ t.toStringList
end

/-! ## Concrete inputs (the §8 example scenario) -/

/-- The §8 example module position: path `["mypkg", "data"]`, depth 2. -/
def exModule : ModuleInfo := ⟨["mypkg", "data"]⟩

def exPlan : RenderPlan := ⟨[]⟩

def exName : BaseIdent := ⟨"Point"⟩

/-- A populated substructure: two fields with their doc-links. -/
def exContext : ItemContext :=
  ⟨some ⟨[⟨"x", "structfield.x"⟩, ⟨"y", "structfield.y"⟩], .ok "<div>fields</div>"⟩⟩

def exHeader : ItemHeader := ⟨exModule, "struct", exName⟩

def exBody : ItemBody :=
  ⟨exModule, .StructDecl, exName, "struct Point", some "A point.", exContext⟩

def exHeaderFrag : Html :=
  match ItemHeader.render exHeader exPlan with
  | .ok f => f
  | .error _ => .text ""

def exBodyFrag : Html :=
  match ItemBody.render exBody exPlan with
  | .ok f => f
  | .error _ => .text ""

/-- A substructure whose collaborator-supplied rendering fails. -/
def exErrContext : ItemContext := ⟨some ⟨[], .error "substructure failed"⟩⟩

def exErrBody : ItemBody :=
  ⟨exModule, .StructDecl, exName, "struct Point", some "A point.", exErrContext⟩

def exErrBodyFrag : Html :=
  match ItemBody.render exErrBody exPlan with
  | .ok f => f
  | .error _ => .text ""

/-- The breadcrumb anchors of the §8 example module. -/
def exAnchors : List String :=
  ["<a class=\"mod\" href=\"../index.html\">mypkg</a>::",
   "<a class=\"mod\" href=\"index.html\">data</a>::"]

/-! ## Helper lemmas -/

theorem HtmlList.toList_ofList (l : List Html) : (HtmlList.ofList l).toList = l := by
  induction l with
  | nil => rfl
  | cons h t ih => simp [HtmlList.ofList, HtmlList.toList, ih]

theorem HtmlList.refsList_ofList (l : List Html) :
    (HtmlList.ofList l).refsList = (l.map Html.refs).flatten := by
  induction l with
  | nil => rfl
  | cons h t ih => simp [HtmlList.ofList, HtmlList.refsList, ih]

theorem HtmlList.inlineScriptsList_ofList (l : List Html) :
    (HtmlList.ofList l).inlineScriptsList = (l.map Html.inlineScripts).flatten := by
  induction l with
  | nil => rfl
  | cons h t ih => simp [HtmlList.ofList, HtmlList.inlineScriptsList, ih]

theorem string_append_inj {p a b : String} (h : p ++ a = p ++ b) : a = b := by
  cases p with
  | mk dp =>
    cases a with
    | mk da =>
      cases b with
      | mk db =>
        simp only [HAppend.hAppend, Append.append, String.append] at h
        injection h with h2
        exact congrArg String.mk (List.append_cancel_left h2)

theorem flatten_map_nil {α : Type _} (l : List α) :
    (l.map fun _ => ([] : List String)).flatten = [] := by
  induction l with
  | nil => rfl
  | cons a t ih => simp [ih]

theorem refs_raw_comp_flatten {α : Type _} (f : α → String) (l : List α) :
    (l.map (Html.refs ∘ Html.raw ∘ f)).flatten = [] := by
  induction l with
  | nil => rfl
  | cons a t ih =>
      have h1 : Html.refs (Html.raw (f a)) = [] := rfl
      simp [Function.comp_apply, h1, ih]

theorem refs_navlink_flatten (l : List DocLink) :
    (l.map (Html.refs ∘ fun dl => Html.elem "a" [("href", some dl.href)]
      (HtmlList.cons (Html.text dl.name) HtmlList.nil))).flatten = [] := by
  induction l with
  | nil => rfl
  | cons a t ih =>
      have h1 : Html.refs (Html.elem "a" [("href", some a.href)]
        (HtmlList.cons (Html.text a.name) HtmlList.nil)) = [] := rfl
      simp [Function.comp_apply, h1, ih]

theorem inline_raw_comp_flatten {α : Type _} (f : α → String) (l : List α) :
    (l.map (Html.inlineScripts ∘ Html.raw ∘ f)).flatten = [] := by
  induction l with
  | nil => rfl
  | cons a t ih =>
      have h1 : Html.inlineScripts (Html.raw (f a)) = [] := rfl
      simp [Function.comp_apply, h1, ih]

theorem inline_navlink_flatten (l : List DocLink) :
    (l.map (Html.inlineScripts ∘ fun dl => Html.elem "a" [("href", some dl.href)]
      (HtmlList.cons (Html.text dl.name) HtmlList.nil))).flatten = [] := by
  induction l with
  | nil => rfl
  | cons a t ih =>
      have h1 : Html.inlineScripts (Html.elem "a" [("href", some a.href)]
        (HtmlList.cons (Html.text a.name) HtmlList.nil)) = [] := rfl
      simp [Function.comp_apply, h1, ih]

theorem captureContext_refs (c : ItemContext) (p : RenderPlan) :
    (Html.captureResult (c.render p)).refs = [] := by
  cases hc : c.context_opt with
  | none => simp [ItemContext.render, hc, Html.captureResult, Html.refs]
  | some ct => cases hm : ct.markup <;>
      simp [ItemContext.render, hc, hm, Except.map, Html.captureResult, Html.refs]

theorem captureContext_inlineScripts (c : ItemContext) (p : RenderPlan) :
    (Html.captureResult (c.render p)).inlineScripts = [] := by
  cases hc : c.context_opt with
  | none => simp [ItemContext.render, hc, Html.captureResult, Html.inlineScripts]
  | some ct => cases hm : ct.markup <;>
      simp [ItemContext.render, hc, hm, Except.map, Html.captureResult, Html.inlineScripts]

theorem descriptionRegion_refs (d : String) : (descriptionRegion d).refs = [] := rfl

theorem descriptionRegion_inlineScripts (d : String) :
    (descriptionRegion d).inlineScripts = [] := rfl

theorem descDetailsOpen_descriptionRegion (d : String) :
    descDetailsOpen (descriptionRegion d) = true := rfl

theorem descDetailsOpen_context (c : ItemContext) (p : RenderPlan) :
    descDetailsOpen (Html.captureResult (c.render p)) = false := by
  cases hc : c.context_opt with
  | none => simp [ItemContext.render, hc, Html.captureResult, descDetailsOpen]
  | some ct => cases hm : ct.markup <;> simp [ItemContext.render, hc, hm, Html.captureResult,
      descDetailsOpen, Except.map]

theorem descDetailsOpen_div (attrs : List Attr) (cs : HtmlList) :
    descDetailsOpen (Html.elem "div" attrs cs) = false := rfl

/-- Every asset reference of a rendered body: the single highlighter script,
regardless of which optional regions are present. -/
theorem body_frag_assets (b : ItemBody) (p : RenderPlan) (frag : Html)
    (hr : ItemBody.render b p = .ok frag) :
    frag.refs = [b.module_info.to_html_shorthand_path_string "assets/highlight.js"] ∧
    frag.inlineScripts = ["hljs.highlightAll();"] := by
  simp only [ItemBody.render, Sidebar.render, ModuleInfo.get_anchors, Except.ok.injEq] at hr
  subst hr
  constructor
  · cases hao : b.attrs_opt <;> cases hco : b.item_context.context_opt <;>
      simp [Html.refs, HtmlList.refsList_ofList, HtmlList.refsList, refOf, lookupAttr,
        List.map_map, flatten_map_nil, hao, hco, descriptionRegion_refs,
        captureContext_refs, HtmlList.ofList, refs_raw_comp_flatten, refs_navlink_flatten,
        descriptionRegion]
  · cases hao : b.attrs_opt <;> cases hco : b.item_context.context_opt <;>
      simp [Html.inlineScripts, HtmlList.inlineScriptsList_ofList, HtmlList.inlineScriptsList,
        lookupAttr, List.map_map, flatten_map_nil, hao, hco,
        descriptionRegion_inlineScripts, captureContext_inlineScripts, scriptInlineText,
        HtmlList.ofList, inline_raw_comp_flatten, inline_navlink_flatten, descriptionRegion]

/-! ## Sanity checks on the §8 example -/

example : ItemHeader.render exHeader exPlan = .ok exHeaderFrag := rfl

example : ItemBody.render exBody exPlan = .ok exBodyFrag := rfl

example : exModule.get_anchors = .ok exAnchors := rfl

example : titleOf exHeaderFrag = some "Point in mypkg::data - Sway" := rfl

example : exHeaderFrag.refs = ["../../assets/sway-logo.svg", "../../assets/normalize.css",
    "../../assets/swaydoc.css", "../../assets/ayu.css", "../../assets/ayu.min.css"] := rfl

example : exBodyFrag.refs = ["../../assets/highlight.js"] := rfl

example : exBodyFrag.inlineScripts = ["hljs.highlightAll();"] := rfl

example : contextSlot exErrBody exErrBodyFrag = some (Html.recordedError "substructure failed") :=
  rfl

/-! ## Claim theorems -/

/-- C1, counterexample: the claim asserts the full page (header fragment plus
body fragment) references exactly five distinct static assets; on the §8
example the rendered page references six distinct assets (the favicon, the
normalize, theme and highlighter-theme stylesheets, the minified
highlighter-theme stylesheet, and the highlighter script), so the count five
is wrong. -/
theorem item_page_asset_count_counterexample :
    (exHeaderFrag.refs ++ exBodyFrag.refs).dedup.length = 6 ∧
    (exHeaderFrag.refs ++ exBodyFrag.refs).dedup.length ≠ 5 := by
  constructor <;> decide

/-- C1 (amended): the full rendered page (header fragment plus body fragment
over the same ModuleInfo) references exactly six distinct static assets — a
favicon, two stylesheets, two highlighter-theme stylesheets (plain and
minified), and one highlighter script — each via a module-relative path
computed by ModuleInfo, plus exactly one inline script statement activating
syntax highlighting. -/
theorem item_page_asset_references (hd : ItemHeader) (b : ItemBody) (p₁ p₂ : RenderPlan)
    (hf bf : Html) (hm : hd.module_info = b.module_info)
    (hh : ItemHeader.render hd p₁ = .ok hf) (hb : ItemBody.render b p₂ = .ok bf) :
    hf.refs ++ bf.refs =
      ["assets/sway-logo.svg", "assets/normalize.css", "assets/swaydoc.css",
        "assets/ayu.css", "assets/ayu.min.css", "assets/highlight.js"].map
        b.module_info.to_html_shorthand_path_string ∧
    (hf.refs ++ bf.refs).Nodup ∧
    hf.inlineScripts ++ bf.inlineScripts = ["hljs.highlightAll();"] := by
  obtain ⟨hbrefs, hbinline⟩ := body_frag_assets b p₂ bf hb
  simp only [ItemHeader.render, Except.ok.injEq] at hh
  have heq : hf.refs ++ bf.refs =
      ["assets/sway-logo.svg", "assets/normalize.css", "assets/swaydoc.css",
        "assets/ayu.css", "assets/ayu.min.css", "assets/highlight.js"].map
        b.module_info.to_html_shorthand_path_string := by
    rw [← hh, hbrefs, hm]
    rfl
  refine ⟨heq, ?_, ?_⟩
  · rw [heq]
    refine List.Nodup.map ?_ (by decide)
    intro x y hxy
    exact string_append_inj hxy
  · rw [← hh, hbinline]
    rfl

/-- C1, witness: the amended asset accounting, instantiated on the §8
example page. -/
theorem item_page_asset_references_witness :
    exHeaderFrag.refs ++ exBodyFrag.refs =
      ["assets/sway-logo.svg", "assets/normalize.css", "assets/swaydoc.css",
        "assets/ayu.css", "assets/ayu.min.css", "assets/highlight.js"].map
        exBody.module_info.to_html_shorthand_path_string ∧
    (exHeaderFrag.refs ++ exBodyFrag.refs).Nodup ∧
    exHeaderFrag.inlineScripts ++ exBodyFrag.inlineScripts = ["hljs.highlightAll();"] :=
  item_page_asset_references exHeader exBody exPlan exPlan exHeaderFrag exBodyFrag rfl rfl rfl

/-- C2, counterexample: the claim asserts the main heading ends with the item
name as plain, non-linked text; on the §8 example the heading's final inline
element is not a text node but an anchor element whose text is the item name
and whose href is the IDENTITY constant, i.e. the name is wrapped in a
(self-referential) link. -/
theorem main_heading_item_name_counterexample :
    (headingLast exBodyFrag).map Html.isTextNode = some false ∧
    (headingLast exBodyFrag).bind anchorText = some "Point" ∧
    (headingLast exBodyFrag).bind anchorHref = some IDENTITY := ⟨rfl, rfl, rfl⟩

/-- C2 (amended): the main heading produced by ItemBody.render consists of
the item kind's title phrase, followed by one breadcrumb anchor per module
path segment, followed by the item name rendered as the text of an anchor
element that carries the declaration's kind tag as its class and the
identity href — a self-referential link — rather than as plain unwrapped
text. -/
theorem main_heading_structure (b : ItemBody) (p : RenderPlan) (frag : Html)
    (anchors : List String) (hr : ItemBody.render b p = .ok frag)
    (ha : b.module_info.get_anchors = .ok anchors) :
    headingSpanChildren frag =
      some (Html.text (b.ty_decl.as_block_title.item_title_str ++ " ")
        :: anchors.map Html.raw
        ++ [Html.elem "a" [("class", some b.ty_decl.doc_name), ("href", some IDENTITY)]
            (.ofList [Html.text b.item_name.as_str])]) ∧
    anchors.length = b.module_info.module_prefixes.length := by
  simp only [ModuleInfo.get_anchors, Except.ok.injEq] at ha
  subst ha
  simp only [ItemBody.render, Sidebar.render, ModuleInfo.get_anchors, Except.ok.injEq] at hr
  subst hr
  constructor
  · cases hao : b.attrs_opt <;> cases hco : b.item_context.context_opt.isSome <;>
      simp [headingSpanChildren, sectionChildren, HtmlList.ofList, HtmlList.toList,
        HtmlList.toList_ofList, hao, hco]
  · simp [List.enum_length]

/-- C2, witness: the amended heading structure on the §8 example, whose two
module path segments yield exactly two breadcrumb anchors. -/
theorem main_heading_structure_witness :
    headingSpanChildren exBodyFrag =
      some (Html.text (exBody.ty_decl.as_block_title.item_title_str ++ " ")
        :: exAnchors.map Html.raw
        ++ [Html.elem "a" [("class", some exBody.ty_decl.doc_name), ("href", some IDENTITY)]
            (.ofList [Html.text exBody.item_name.as_str])]) ∧
    exAnchors.length = exBody.module_info.module_prefixes.length :=
  main_heading_structure exBody exPlan exBodyFrag exAnchors rfl rfl

/-- C3: among the direct children of the rendered body's main section there
is an expandable (open-by-default) description region exactly when the
description is present, and after the two fixed blocks the section holds the
description region (when present) followed by the substructure region (only
when the ItemContext has content), in that order. -/
theorem conditional_regions (b : ItemBody) (p : RenderPlan) (frag : Html)
    (hr : ItemBody.render b p = .ok frag) :
    ((sectionChildren frag).map fun cs => cs.countP descDetailsOpen) =
      some (if b.attrs_opt.isSome then 1 else 0) ∧
    (sectionChildren frag).map (List.drop 2) =
      some ((b.attrs_opt.elim [] fun descr => [descriptionRegion descr])
        ++ (b.item_context.context_opt.elim [] fun _ =>
              [Html.captureResult (b.item_context.render p)])) := by
  simp only [ItemBody.render, Sidebar.render, ModuleInfo.get_anchors, Except.ok.injEq] at hr
  subst hr
  constructor
  · cases hao : b.attrs_opt <;> cases hco : b.item_context.context_opt <;>
      simp [sectionChildren, HtmlList.ofList, HtmlList.toList, HtmlList.toList_ofList, hao, hco,
        List.countP_cons, List.countP_append, descDetailsOpen_descriptionRegion,
        descDetailsOpen_context, descDetailsOpen_div]
  · cases hao : b.attrs_opt <;> cases hco : b.item_context.context_opt <;>
      simp [sectionChildren, HtmlList.ofList, HtmlList.toList, HtmlList.toList_ofList, hao, hco,
        Option.elim]

/-- C3, witness: on the §8 example (description and substructure both
present) the section carries exactly one open description region, followed by
the substructure region. -/
theorem conditional_regions_witness :
    ((sectionChildren exBodyFrag).map fun cs => cs.countP descDetailsOpen) =
      some (if exBody.attrs_opt.isSome then 1 else 0) ∧
    (sectionChildren exBodyFrag).map (List.drop 2) =
      some ((exBody.attrs_opt.elim [] fun descr => [descriptionRegion descr])
        ++ (exBody.item_context.context_opt.elim [] fun _ =>
              [Html.captureResult (exBody.item_context.render exPlan)])) :=
  conditional_regions exBody exPlan exBodyFrag rfl

/-- C4: ItemHeader.render succeeds on every input, and ItemBody.render fails
exactly when ModuleInfo.get_anchors fails (under the spec's model of path
resolution, which has no failure mode, neither side ever fails). -/
theorem render_failure_semantics :
    (∀ (h : ItemHeader) (p : RenderPlan), ∃ frag, ItemHeader.render h p = .ok frag) ∧
    (∀ (b : ItemBody) (p : RenderPlan),
      (∃ e, ItemBody.render b p = .error e) ↔ (∃ e, b.module_info.get_anchors = .error e)) := by
  constructor
  · intro h p; exact ⟨_, rfl⟩
  · intro b p
    constructor
    · rintro ⟨e, he⟩
      simp [ItemBody.render, Sidebar.render, ModuleInfo.get_anchors] at he
    · rintro ⟨e, he⟩
      simp [ModuleInfo.get_anchors] at he

/-- C5: the title element of every rendered header is the item name, " in ",
the module display path, and " - Sway". -/
theorem itemheader_title_format (h : ItemHeader) (p : RenderPlan) (frag : Html)
    (hr : ItemHeader.render h p = .ok frag) :
    titleOf frag = some (h.item_name.as_str ++ " in " ++ h.module_info.location ++ " - Sway") := by
  simp only [ItemHeader.render, Except.ok.injEq] at hr
  subst hr
  rfl

/-- C5, witness: the §8 example title is "Point in mypkg::data - Sway". -/
theorem itemheader_title_format_witness :
    titleOf exHeaderFrag =
      some (exHeader.item_name.as_str ++ " in " ++ exHeader.module_info.location ++ " - Sway") :=
  itemheader_title_format exHeader exPlan exHeaderFrag rfl

/-- C6: every rendered header carries exactly four stylesheet links, in
order normalize, the theme stylesheet, the highlighter-theme stylesheet and
its minified variant, and one favicon link, all with hrefs computed
module-relative by ModuleInfo's asset-path function. -/
theorem itemheader_stylesheet_links (h : ItemHeader) (p : RenderPlan) (frag : Html)
    (hr : ItemHeader.render h p = .ok frag) :
    stylesheetHrefs frag =
      ["assets/normalize.css", "assets/swaydoc.css", "assets/ayu.css", "assets/ayu.min.css"].map
        h.module_info.to_html_shorthand_path_string ∧
    faviconHref frag = some (h.module_info.to_html_shorthand_path_string "assets/sway-logo.svg") := by
  simp only [ItemHeader.render, Except.ok.injEq] at hr
  subst hr
  exact ⟨rfl, rfl⟩

/-- C6, witness: the four stylesheet hrefs and the favicon href on the §8
example, all prefixed by two parent hops. -/
theorem itemheader_stylesheet_links_witness :
    stylesheetHrefs exHeaderFrag =
      ["assets/normalize.css", "assets/swaydoc.css", "assets/ayu.css", "assets/ayu.min.css"].map
        exHeader.module_info.to_html_shorthand_path_string ∧
    faviconHref exHeaderFrag =
      some (exHeader.module_info.to_html_shorthand_path_string "assets/sway-logo.svg") :=
  itemheader_stylesheet_links exHeader exPlan exHeaderFrag rfl

/-- C7: the sidebar of an ItemBody is computed from the body itself: always
the item style (never the index style) with the declaration's block title and
the item's name, the body's ModuleInfo, and exactly the doc-links of the
body's ItemContext; ItemBody.render places this sidebar's fragment first in
the rendered body. -/
theorem itembody_sidebar_derivation (b : ItemBody) :
    b.sidebar.style = DocStyle.Item (some b.ty_decl.as_block_title) (some b.item_name) ∧
    b.sidebar.style ≠ DocStyle.Index ∧
    b.sidebar.module_info = b.module_info ∧
    b.sidebar.nav_links = b.item_context.to_doclinks ∧
    ∀ (p : RenderPlan) (frag : Html), ItemBody.render b p = .ok frag →
      ∃ sf rest, Sidebar.render b.sidebar p = .ok sf ∧ bodyChildren frag = some (sf :: rest) := by
  refine ⟨rfl, by simp [ItemBody.sidebar, Sidebar.new], rfl, rfl, ?_⟩
  intro p frag hr
  simp only [ItemBody.render, Sidebar.render, ModuleInfo.get_anchors, Except.ok.injEq] at hr
  subst hr
  exact ⟨_, _, rfl, rfl⟩

/-- C7, witness: on the §8 example the sidebar fragment renders and is the
first child of the rendered body. -/
theorem itembody_sidebar_derivation_witness :
    ∃ sf rest, Sidebar.render exBody.sidebar exPlan = .ok sf ∧
      bodyChildren exBodyFrag = some (sf :: rest) :=
  (itembody_sidebar_derivation exBody).2.2.2.2 exPlan exBodyFrag rfl

/-- C8: rendering is deterministic - rendering equal copies of the same
ItemBody with the same RenderPlan yields byte-identical serialized output. -/
theorem itembody_render_deterministic (b₁ b₂ : ItemBody) (p : RenderPlan) (h : b₁ = b₂) :
    (ItemBody.render b₁ p).map Html.toString = (ItemBody.render b₂ p).map Html.toString := by
  subst h
  rfl

/-- C8, witness: two renders of the §8 example body agree byte for byte. -/
theorem itembody_render_deterministic_witness :
    (ItemBody.render exBody exPlan).map Html.toString =
      (ItemBody.render exBody exPlan).map Html.toString :=
  itembody_render_deterministic exBody exBody exPlan rfl

/-- C9: ItemHeader.render does not depend on the RenderPlan - for any two
plans the produced fragments are identical. -/
theorem itemheader_plan_independent (h : ItemHeader) (p₁ p₂ : RenderPlan) :
    ItemHeader.render h p₁ = ItemHeader.render h p₂ := rfl

/-- C10: ItemBody.render fails exactly when Sidebar.render or
ModuleInfo.get_anchors fails, and the substructure's render result is
captured inside the fragment (at the slot after the fixed and description
regions) instead of short-circuiting, so an ItemContext.render failure does
not make ItemBody.render fail. -/
theorem itemcontext_error_not_propagated (b : ItemBody) (p : RenderPlan) :
    ((∃ e, ItemBody.render b p = .error e) ↔
      ((∃ e, Sidebar.render b.sidebar p = .error e) ∨
        (∃ e, b.module_info.get_anchors = .error e))) ∧
    (∀ frag, ItemBody.render b p = .ok frag →
      contextSlot b frag = b.item_context.context_opt.map fun _ =>
        Html.captureResult (b.item_context.render p)) := by
  constructor
  · constructor
    · rintro ⟨e, he⟩
      simp [ItemBody.render, Sidebar.render, ModuleInfo.get_anchors] at he
    · rintro (⟨e, he⟩ | ⟨e, he⟩) <;>
        simp [Sidebar.render, ModuleInfo.get_anchors] at he
  · intro frag hr
    simp only [ItemBody.render, Sidebar.render, ModuleInfo.get_anchors, Except.ok.injEq] at hr
    subst hr
    cases hao : b.attrs_opt <;> cases hco : b.item_context.context_opt <;>
      simp [contextSlot, sectionChildren, HtmlList.ofList, HtmlList.toList,
        HtmlList.toList_ofList, hao, hco]

/-- C10, witness: a body whose substructure render fails still renders
successfully, with the captured substructure result (a recorded error)
embedded at the substructure slot of the fragment. -/
theorem itemcontext_error_not_propagated_witness :
    contextSlot exErrBody exErrBodyFrag = exErrBody.item_context.context_opt.map fun _ =>
      Html.captureResult (exErrBody.item_context.render exPlan) :=
  (itemcontext_error_not_propagated exErrBody exPlan).2 exErrBodyFrag rfl
